import Mathlib

/-!
Verification development for the dLocal pending-debits processing pipeline
(`automate_dlocal_pending.py`, the CLI surface, and `app.py`, the web surface).

The Python code is shallowly embedded:
* spreadsheet cells become the tagged union `CellValue` (empty / number /
  text / date); workbooks become `List (List CellValue)` in row order, with
  1-based column positions as in openpyxl;
* Python floats are modelled as exact rationals (`ℚ`);
* fallible steps (`process_transaction_file` returning `None`, uncaught
  exceptions) become `Option` / `Except`;
* the wall clock enters only through the explicit `nowYear` parameter
  (`datetime.now().year` is used by `extract_month_from_filename` when the
  filename holds no year token).

String primitives from Python (`in`, `.lower()`, `.strip()`, `.replace`)
are modelled over `List Char` so that every definition evaluates inside the
kernel.
-/

/-- Gregorian calendar date as produced by `datetime.strptime` /
stored by openpyxl in date cells.  Only the date part is relevant: the
pipeline reads `.month` and `.year` and never the time of day. -/
structure PyDateTime where
  year : Nat
  month : Nat
  day : Nat
  deriving DecidableEq, Repr

/-- Content of a spreadsheet cell as surfaced by openpyxl: `None`
(`Empty`), a number (int/float, modelled exactly as `ℚ`), a string, or a
`datetime` object. -/
inductive CellValue where
  | Empty : CellValue
  | Num : ℚ → CellValue
  | Text : String → CellValue
  | Date : PyDateTime → CellValue
  deriving DecidableEq, Repr

/-- Python truthiness of a cell value (`if cell.value:` / `if debit_value`):
`None`, `0` and `""` are falsy, everything else truthy. -/
def cellTruthy : CellValue → Bool
  | CellValue.Empty => false
  | CellValue.Num q => if q = 0 then false else true
  | CellValue.Text s => if s = "" then false else true
  | CellValue.Date _ => true

/-- Does `s` start with `pat`?  (helper for the substring test) -/
def leadMatch : List Char → List Char → Bool
  | [], _ => true
  | _ :: _, [] => false
  | a :: pa, b :: pb => a == b && leadMatch pa pb

/-- Python's `pat in s` substring test over character lists. -/
def subSearch (pat : List Char) : List Char → Bool
  | [] => pat.isEmpty
  | c :: rest => leadMatch pat (c :: rest) || subSearch pat rest

/-- Python `str.lower()` (the filenames and header labels are ASCII). -/
def pyLower (s : String) : List Char := s.data.map Char.toLower

/-- Python `str.strip()`: drop whitespace from both ends. -/
def trimChars (cs : List Char) : List Char :=
  ((cs.dropWhile Char.isWhitespace).reverse.dropWhile Char.isWhitespace).reverse

/-- Python `str.replace(',', '')` — removes every comma. -/
def removeCommas (s : String) : List Char := s.data.filter (fun c => !(c == ','))

/-- Span of leading decimal digits. -/
def spanDigits : List Char → List Char × List Char
  | [] => ([], [])
  | c :: rest =>
      if c.isDigit then
        let p := spanDigits rest
        (c :: p.1, p.2)
      else ([], c :: rest)

/-- Decimal value of a digit list. -/
def digitsVal (ds : List Char) : Nat := ds.foldl (fun a c => 10 * a + (c.toNat - 48)) 0

/-- Leftmost match of the regex `20\d{2}` (`re.search(r'20\d{2}', filename)`),
returning its numeric value. -/
def findYear20 : List Char → Option Nat
  | [] => none
  | c :: rest =>
      match c, rest with
      | '2', '0' :: a :: b :: _ =>
          if a.isDigit && b.isDigit then some (2000 + 10 * (a.toNat - 48) + (b.toNat - 48))
          else findYear20 rest
      | _, _ => findYear20 rest

/-- Optional `+`/`-` sign; returns (negative?, rest). -/
def parseSign : List Char → Bool × List Char
  | '+' :: r => (false, r)
  | '-' :: r => (true, r)
  | cs => (false, cs)

/-- Mantissa of a decimal float literal: `digits`, `digits.digits`,
`digits.`, or `.digits`. -/
def parseMantissa (cs : List Char) : Option (ℚ × List Char) :=
  let p := spanDigits cs
  match p.2 with
  | '.' :: r2 =>
      let f := spanDigits r2
      if p.1.isEmpty && f.1.isEmpty then none
      else some ((digitsVal p.1 : ℚ) + (digitsVal f.1 : ℚ) / (10 : ℚ) ^ f.1.length, f.2)
  | _ => if p.1.isEmpty then none else some ((digitsVal p.1 : ℚ), p.2)

/-- Exponent tail after the `e`/`E`: optional sign, at least one digit,
nothing left over. -/
def parseExpTail (m : ℚ) (neg : Bool) (r2 : List Char) : Option ℚ :=
  let sp := parseSign r2
  let ds := spanDigits sp.2
  if ds.1.isEmpty then none
  else if ds.2.isEmpty then
    let mag := if sp.1 then m / (10 : ℚ) ^ digitsVal ds.1 else m * (10 : ℚ) ^ digitsVal ds.1
    some (if neg then -mag else mag)
  else none

/-- CPython `float(s)` on decimal notation: optional surrounding
whitespace, optional sign, decimal mantissa, optional exponent; the whole
string must be consumed.  Exact rational arithmetic stands in for binary
floating point; the special spellings `inf`/`nan` and underscore digit
separators are outside the model (no claim depends on them). -/
def parsePyFloat (cs : List Char) : Option ℚ :=
  let t := trimChars cs
  let sp := parseSign t
  match parseMantissa sp.2 with
  | none => none
  | some (m, r1) =>
      match r1 with
      | [] => some (if sp.1 then -m else m)
      | 'e' :: r2 => parseExpTail m sp.1 r2
      | 'E' :: r2 => parseExpTail m sp.1 r2
      | _ => none

/-- `calendar.isleap` from the Python standard library. -/
def calendar_isleap (y : Nat) : Bool :=
  y % 4 == 0 && (!(y % 100 == 0) || y % 400 == 0)

/-- `calendar.mdays` (index 0 unused). -/
def calendar_mdays : List Nat := [0, 31, 28, 31, 30, 31, 30, 31, 31, 30, 31, 30, 31]

/-- `calendar.monthrange(y, m)[1]`: number of days of month `m` of year
`y`, i.e. the last calendar day of that month. -/
def monthrange_days (y m : Nat) : Nat :=
  calendar_mdays.getD m 0 + (if m == 2 && calendar_isleap y then 1 else 0)

/-- Two-digit-year pivot used by `datetime.strptime`'s `%y`:
0–68 map into 2000–2068, 69–99 into 1969–1999. -/
def year2Map (y2 : Nat) : Nat := if y2 ≤ 68 then 2000 + y2 else 1900 + y2

/-- Final validation performed by the `datetime(year, month, day)`
constructor inside `strptime` (month and day ranges and month length,
Gregorian leap rule, year within 1..9999). -/
def mkValidDate (y m d : Nat) : Option PyDateTime :=
  if 1 ≤ m && m ≤ 12 && 1 ≤ d && d ≤ monthrange_days y m && 1 ≤ y && y ≤ 9999 then
    some ⟨y, m, d⟩
  else none

/-- `datetime.strptime(s, '%m/%d/%y')`: one or two digits, `/`, one or two
digits, `/`, exactly two digits, end of string; then the value checks of
the `datetime` constructor. -/
def strptime_mdy2 (cs : List Char) : Option PyDateTime :=
  let m := spanDigits cs
  match m.2 with
  | '/' :: r2 =>
      let d := spanDigits r2
      match d.2 with
      | '/' :: r4 =>
          let yy := spanDigits r4
          if (m.1.length == 1 || m.1.length == 2) && (d.1.length == 1 || d.1.length == 2)
              && yy.1.length == 2 && yy.2.isEmpty then
            mkValidDate (year2Map (digitsVal yy.1)) (digitsVal m.1) (digitsVal d.1)
          else none
      | _ => none
  | _ => none

/-- `datetime.strptime(s, '%m/%d/%Y')`: as above but with a four-digit year. -/
def strptime_mdy4 (cs : List Char) : Option PyDateTime :=
  let m := spanDigits cs
  match m.2 with
  | '/' :: r2 =>
      let d := spanDigits r2
      match d.2 with
      | '/' :: r4 =>
          let yy := spanDigits r4
          if (m.1.length == 1 || m.1.length == 2) && (d.1.length == 1 || d.1.length == 2)
              && yy.1.length == 4 && yy.2.isEmpty then
            mkValidDate (digitsVal yy.1) (digitsVal m.1) (digitsVal d.1)
          else none
      | _ => none
  | _ => none

/-- `datetime.strptime(s, '%Y-%m-%d')`. -/
def strptime_ymd (cs : List Char) : Option PyDateTime :=
  let yy := spanDigits cs
  match yy.2 with
  | '-' :: r2 =>
      let m := spanDigits r2
      match m.2 with
      | '-' :: r4 =>
          let d := spanDigits r4
          if yy.1.length == 4 && (m.1.length == 1 || m.1.length == 2)
              && (d.1.length == 1 || d.1.length == 2) && d.2.isEmpty then
            mkValidDate (digitsVal yy.1) (digitsVal m.1) (digitsVal d.1)
          else none
      | _ => none
  | _ => none

/-- `parse_date` (identical in both source files): a `datetime` value is
returned as-is; a string is tried against `'%m/%d/%y'`, `'%m/%d/%Y'`,
`'%Y-%m-%d'` in that order and the first success wins; everything else
gives `None`. -/
def parse_date (v : CellValue) : Option PyDateTime :=
  match v with
  | CellValue.Date d => some d
  | CellValue.Text s =>
      match strptime_mdy2 s.data with
      | some d => some d
      | none =>
          match strptime_mdy4 s.data with
          | some d => some d
          | none => strptime_ymd s.data
  | _ => none

example : parse_date (CellValue.Text "2/1/25") = some ⟨2025, 2, 1⟩ := by decide
example : parse_date (CellValue.Text "02/30/2025") = none := by decide
example : parse_date (CellValue.Text "2025-10-07") = some ⟨2025, 10, 7⟩ := by decide
example : parse_date (CellValue.Text "not a date") = none := by decide
example : parsePyFloat "1,234.50".data = none := by decide
example : parsePyFloat (removeCommas "1,234.50") = some (2469 / 2) := by
  simp [parsePyFloat, removeCommas, trimChars, parseSign, parseMantissa, spanDigits, digitsVal]
  norm_num

/-- Python's `str(value).replace(',', '').strip()`-style amount coercion as
inlined in `process_transaction_file` (both files): a falsy value (`None`,
`0`, `""`) or the literal `'-'` gives `0`; a string is stripped of commas
and fed to `float`, any failure silently giving `0`; a numeric value
round-trips through `float(str(value))` unchanged; a `datetime` makes
`float(str(value))` raise, giving `0`. -/
def coerceAmount (v : CellValue) : ℚ :=
  if cellTruthy v = true ∧ v ≠ CellValue.Text "-" then
    match v with
    | CellValue.Text s => (parsePyFloat (removeCommas s)).getD 0
    | CellValue.Num q => q
    | _ => 0
  else 0

/-- The raw value stored in the transaction dictionaries:
`debit_value if debit_value and debit_value != '-' else 0`. -/
def storedAmount (v : CellValue) : CellValue :=
  if cellTruthy v = true ∧ v ≠ CellValue.Text "-" then v else CellValue.Num 0

/-- The month-name dictionary of `extract_month_from_filename`, in Python
insertion (= iteration) order: Spanish months first, then English. -/
def month_mapping : List (String × Nat) :=
  [("enero", 1), ("febrero", 2), ("marzo", 3), ("abril", 4),
   ("mayo", 5), ("junio", 6), ("julio", 7), ("agosto", 8),
   ("septiembre", 9), ("octubre", 10), ("noviembre", 11), ("diciembre", 12),
   ("january", 1), ("february", 2), ("march", 3), ("april", 4),
   ("may", 5), ("june", 6), ("july", 7), ("august", 8),
   ("september", 9), ("october", 10), ("november", 11), ("december", 12)]

/-- `extract_month_from_filename` (CLI file): first dictionary entry whose
name occurs in the lowercased filename wins; the year is the first
`20\d{2}` match in the original filename, defaulting to the current
calendar year (`nowYear` models `datetime.now().year`).  Returns `none`
when no month name occurs (Python's `(None, None)`). -/
def extract_month_from_filename (nowYear : Nat) (filename : String) : Option (Nat × Nat) :=
  let fl := pyLower filename
  match month_mapping.find? (fun p => subSearch p.1.data fl) with
  | some p => some (p.2, (findYear20 filename.data).getD nowYear)
  | none => none

/-- `get_following_month`: advance one month with December→January year
rollover. -/
def get_following_month (month year : Nat) : Nat × Nat :=
  if month = 12 then (1, year + 1) else (month + 1, year)

/-- Column positions discovered by the header scan, keyed like the Python
`headers` dict (1-based columns as in openpyxl). -/
structure Headers where
  date_processed : Option Nat := none
  debit_amount : Option Nat := none
  return_amount : Option Nat := none
  date : Option Nat := none
  cn : Option Nat := none
  dn : Option Nat := none
  deriving DecidableEq, Repr

/-- `len(headers)` — number of logical fields recorded so far. -/
def headersLen (h : Headers) : Nat :=
  (if h.date_processed.isSome then 1 else 0) + (if h.debit_amount.isSome then 1 else 0)
    + (if h.return_amount.isSome then 1 else 0) + (if h.date.isSome then 1 else 0)
    + (if h.cn.isSome then 1 else 0) + (if h.dn.isSome then 1 else 0)

/-- One cell of the first header pass: `if cell.value:` then the
`'Date processed' in text or 'Date Processed' in text` /
`'ACH_DEBIT_AMOUNT' in text` / `'ACH_RETURN_AMOUNT' in text` /
`text == 'Date'` chain on `str(cell.value).strip()`.  Only text cells can
match: `str()` of a number or datetime consists of digits, `.`, `-`, `:`
and spaces, which can neither contain the header phrases nor equal
`'Date'`; falsy cells are skipped by the truthiness guard. -/
def headerCellStep (h : Headers) (col : Nat) (v : CellValue) : Headers :=
  match v with
  | CellValue.Text s =>
      if s = "" then h
      else
        let ht := trimChars s.data
        if subSearch "Date processed".data ht || subSearch "Date Processed".data ht then
          { h with date_processed := some col }
        else if subSearch "ACH_DEBIT_AMOUNT".data ht then { h with debit_amount := some col }
        else if subSearch "ACH_RETURN_AMOUNT".data ht then { h with return_amount := some col }
        else if ht = "Date".data then { h with date := some col }
        else h
  | _ => h

/-- Scan the cells of one row left to right (`for cell in row`),
`col` being the 1-based column of the first cell. -/
def scanCells (h : Headers) (col : Nat) : List CellValue → Headers
  | [] => h
  | v :: rest => scanCells (headerCellStep h col v) (col + 1) rest

/-- First header pass over the rows, carrying the 1-based index `idx` of
the current row and the row of the last cell object seen (`cell.row`,
still holding the previous row's cell when a row is empty).  After each
row, `if len(headers) >= 3` stops the scan and records `header_row`. -/
def scanRows (h : Headers) (idx lastRow : Nat) : List (List CellValue) → Headers × Option Nat
  | [] => (h, none)
  | row :: rest =>
      let h2 := scanCells h 1 row
      let last2 := if row.isEmpty then lastRow else idx
      if 3 ≤ headersLen h2 then (h2, some last2)
      else scanRows h2 (idx + 1) last2 rest

/-- `ws.iter_rows(min_row=1, max_row=5)` over the first header pass. -/
def scanHeaders (grid : List (List CellValue)) : Headers × Option Nat :=
  scanRows {} 1 0 (grid.take 5)

/-- One cell of the second pass (`CN` / `DN`, exact match on the trimmed
text; non-text values can never equal these). -/
def cndnCellStep (h : Headers) (col : Nat) (v : CellValue) : Headers :=
  match v with
  | CellValue.Text s =>
      if s = "" then h
      else
        let ht := trimChars s.data
        if ht = "CN".data then { h with cn := some col }
        else if ht = "DN".data then { h with dn := some col }
        else h
  | _ => h

/-- Cells of one row in the second pass. -/
def cndnScanCells (h : Headers) (col : Nat) : List CellValue → Headers
  | [] => h
  | v :: rest => cndnScanCells (cndnCellStep h col v) (col + 1) rest

/-- Second pass: all of the first 5 rows, no early stop. -/
def cndnScanRows (h : Headers) (rows : List (List CellValue)) : Headers :=
  rows.foldl (fun a row => cndnScanCells a 1 row) h

/-- Row entry of `all_transactions` (raw cell values are kept; `debit` and
`ret` hold the raw value or the number `0` as stored by the code — `ret`
models the `'return'` key, `return` being a reserved word in Lean). -/
structure AllTxn where
  date : CellValue
  date_processed : CellValue
  debit : CellValue
  ret : CellValue
  cn : CellValue
  dn : CellValue
  is_following_month : Bool
  deriving DecidableEq, Repr

/-- Row entry of `filtered_transactions` (no `cn`/`dn`/flag keys). -/
structure FilteredTxn where
  date : CellValue
  date_processed : CellValue
  debit : CellValue
  ret : CellValue
  deriving DecidableEq, Repr

/-- Mutable state of the transaction loop. -/
structure LoopState where
  total_debit : ℚ := 0
  total_return : ℚ := 0
  transactions : List FilteredTxn := []
  all_transactions : List AllTxn := []
  deriving DecidableEq, Repr

/-- `row[c - 1]` for a 1-based column `c`.  openpyxl pads every row to the
sheet width, so the position always exists; absent positions of a ragged
model row read as empty cells. -/
def cellAt (row : List CellValue) (c : Nat) : CellValue :=
  row.getD (c - 1) CellValue.Empty

/-- `row[headers.get(k, 0) - 1].value if k in headers else ''`. -/
def optCellValue (o : Option Nat) (row : List CellValue) : CellValue :=
  match o with
  | some c => cellAt row c
  | none => CellValue.Text ""

/-- `date_processed and date_processed.month == following_month and
date_processed.year == following_year` on an already parsed value. -/
def rowMatchesVal (folM folY : Nat) (v : CellValue) : Bool :=
  match parse_date v with
  | some d => d.month == folM && d.year == folY
  | none => false

/-- The `all_transactions` dictionary built for one retained row. -/
def mkAllTxn (dpCol : Nat) (h : Headers) (folM folY : Nat) (row : List CellValue) : AllTxn :=
  { date := optCellValue h.date row,
    date_processed := cellAt row dpCol,
    debit := storedAmount (cellAt row (h.debit_amount.getD 0)),
    ret := storedAmount (cellAt row (h.return_amount.getD 0)),
    cn := optCellValue h.cn row,
    dn := optCellValue h.dn row,
    is_following_month := rowMatchesVal folM folY (cellAt row dpCol) }

/-- Projection onto the `filtered_transactions` dictionary shape. -/
def mkFiltTxn (t : AllTxn) : FilteredTxn :=
  { date := t.date, date_processed := t.date_processed, debit := t.debit, ret := t.ret }

/-- Pure body of one loop iteration, assuming the amount columns exist. -/
def stepRow (dpCol : Nat) (h : Headers) (folM folY : Nat) (st : LoopState)
    (row : List CellValue) : LoopState :=
  if cellTruthy (cellAt row dpCol) = false then st
  else
    let txn := mkAllTxn dpCol h folM folY row
    let st1 := { st with all_transactions := st.all_transactions ++ [txn] }
    if txn.is_following_month then
      { st1 with
        total_debit := st1.total_debit + coerceAmount (cellAt row (h.debit_amount.getD 0)),
        total_return := st1.total_return + coerceAmount (cellAt row (h.return_amount.getD 0)),
        transactions := st1.transactions ++ [mkFiltTxn txn] }
    else st1

/-- One loop iteration.  A row whose `date_processed` cell is falsy is
skipped before the amount columns are touched; otherwise
`headers['debit_amount']` / `headers['return_amount']` raise `KeyError`
when absent (modelled as `none`). -/
def processRow (dpCol : Nat) (h : Headers) (folM folY : Nat) (st : LoopState)
    (row : List CellValue) : Option LoopState :=
  if cellTruthy (cellAt row dpCol) = false then some st
  else if h.debit_amount.isSome && h.return_amount.isSome then
    some (stepRow dpCol h folM folY st row)
  else none

/-- The `result` dictionary of `process_transaction_file`. -/
structure Result where
  file_month : Nat
  file_year : Nat
  following_month : Nat
  following_year : Nat
  total_debit : ℚ
  total_return : ℚ
  net_amount : ℚ
  transactions : List FilteredTxn
  all_transactions : List AllTxn
  filename : String
  deriving DecidableEq, Repr

/-- `process_transaction_file` of `automate_dlocal_pending.py`.  `none`
models every run that produces no result: the two guarded `return None`
paths (no month in the filename, no `Date processed` column) and the two
uncaught exceptions (`NameError` when fewer than 3 header fields were
found so `header_row` was never assigned, `KeyError` when an amount column
is missing and a data row is retained). -/
def process_transaction_file (nowYear : Nat) (filename : String)
    (grid : List (List CellValue)) : Option Result :=
  match extract_month_from_filename nowYear filename with
  | none => none
  | some fmfy =>
      let fol := get_following_month fmfy.1 fmfy.2
      let scan := scanHeaders grid
      match scan.1.date_processed with
      | none => none
      | some dpCol =>
          let h := cndnScanRows scan.1 (grid.take 5)
          match scan.2 with
          | none => none
          | some header_row =>
              match List.foldlM (processRow dpCol h fol.1 fol.2) {} (grid.drop header_row) with
              | none => none
              | some st =>
                  some { file_month := fmfy.1, file_year := fmfy.2,
                         following_month := fol.1, following_year := fol.2,
                         total_debit := st.total_debit, total_return := st.total_return,
                         net_amount := st.total_debit - st.total_return,
                         transactions := st.transactions,
                         all_transactions := st.all_transactions,
                         filename := filename }

/-- Zero-padded month, `f"{m:02d}"`. -/
def fmt02 (n : Nat) : String := if n < 10 then "0" ++ toString n else toString n

/-- One row of the JOURNAL ENTRY block, columns A–L in order
(`class_dim` models the `Class` column, `class` being a reserved word). -/
structure JournalLine where
  debit : Option ℚ
  credit : Option ℚ
  date : String
  reversal_date : String
  memo : String
  account : String
  department : String
  location : String
  name : Option String
  subsidiary : String
  je_memo : String
  class_dim : String
  deriving DecidableEq, Repr

/-- The journal-entry data rows written by `create_summary_and_je`
(CLI file, lines 355–477; the `app.py` copy computes the same cells).
Zero rows when the net amount is zero, otherwise exactly the two literal
rows of the matching sign branch. -/
def journal_entry_lines (r : Result) : List JournalLine :=
  let net := r.net_amount
  let memo := "dLocal Pending Debits " ++ fmt02 r.file_month ++ "." ++ toString r.file_year
  let last_day_month := if r.file_month = 12 then 12 else r.file_month
  let last_day_year := r.file_year
  let last_day := monthrange_days last_day_year last_day_month
  let date_str := toString last_day_month ++ "/" ++ toString last_day ++ "/" ++ toString last_day_year
  let reversal_date_str := toString r.following_month ++ "/1/" ++ toString r.following_year
  if 0 < net then
    [{ debit := some |net|, credit := none, date := date_str, reversal_date := reversal_date_str,
       memo := memo, account := "22010 - Customer Funds Obligation : Customer Funds Liability",
       department := "0000 Corporate", location := "1 San Francisco", name := none,
       subsidiary := "Gusto Inc Global : Gusto Inc US", je_memo := memo,
       class_dim := "601 Horizontal" },
     { debit := none, credit := some |net|, date := date_str, reversal_date := reversal_date_str,
       memo := memo,
       account := "21017 - Other Current Liabilities : Accrued Liabilities - Platform",
       department := "0000 Corporate", location := "1 San Francisco", name := none,
       subsidiary := "Gusto Inc Global : Gusto Inc US", je_memo := memo,
       class_dim := "601 Horizontal" }]
  else if net < 0 then
    [{ debit := none, credit := some |net|, date := date_str, reversal_date := reversal_date_str,
       memo := memo, account := "22010 - Customer Funds Obligation : Customer Funds Liability",
       department := "0000 Corporate", location := "1 San Francisco", name := none,
       subsidiary := "Gusto Inc Global : Gusto Inc US", je_memo := memo,
       class_dim := "601 Horizontal" },
     { debit := some |net|, credit := none, date := date_str, reversal_date := reversal_date_str,
       memo := memo,
       account := "21017 - Other Current Liabilities : Accrued Liabilities - Platform",
       department := "0000 Corporate", location := "1 San Francisco", name := none,
       subsidiary := "Gusto Inc Global : Gusto Inc US", je_memo := memo,
       class_dim := "601 Horizontal" }]
  else []

/-! ### The `app.py` copies

`app.py` carries a textually duplicated copy of the pipeline.  Each
`app_*` definition below embeds the copy from `app.py`; only the failure
channel differs (`process_transaction_file` there returns a
`(result, error)` pair, modelled as `Except String Result`, and the two
uncaught exceptions propagate to the web framework, modelled as dedicated
error strings). -/

/-- `extract_month_from_filename` of `app.py` — same dictionary literal. -/
def app_month_mapping : List (String × Nat) :=
  [("enero", 1), ("febrero", 2), ("marzo", 3), ("abril", 4),
   ("mayo", 5), ("junio", 6), ("julio", 7), ("agosto", 8),
   ("septiembre", 9), ("octubre", 10), ("noviembre", 11), ("diciembre", 12),
   ("january", 1), ("february", 2), ("march", 3), ("april", 4),
   ("may", 5), ("june", 6), ("july", 7), ("august", 8),
   ("september", 9), ("october", 10), ("november", 11), ("december", 12)]

/-- `extract_month_from_filename` of `app.py`. -/
def app_extract_month_from_filename (nowYear : Nat) (filename : String) : Option (Nat × Nat) :=
  let fl := pyLower filename
  match app_month_mapping.find? (fun p => subSearch p.1.data fl) with
  | some p => some (p.2, (findYear20 filename.data).getD nowYear)
  | none => none

/-- `get_following_month` of `app.py`. -/
def app_get_following_month (month year : Nat) : Nat × Nat :=
  if month = 12 then (1, year + 1) else (month + 1, year)

/-- `parse_date` of `app.py`. -/
def app_parse_date (v : CellValue) : Option PyDateTime :=
  match v with
  | CellValue.Date d => some d
  | CellValue.Text s =>
      match strptime_mdy2 s.data with
      | some d => some d
      | none =>
          match strptime_mdy4 s.data with
          | some d => some d
          | none => strptime_ymd s.data
  | _ => none

/-- Header-cell step of `app.py` (lines 93–103). -/
def app_headerCellStep (h : Headers) (col : Nat) (v : CellValue) : Headers :=
  match v with
  | CellValue.Text s =>
      if s = "" then h
      else
        let ht := trimChars s.data
        if subSearch "Date processed".data ht || subSearch "Date Processed".data ht then
          { h with date_processed := some col }
        else if subSearch "ACH_DEBIT_AMOUNT".data ht then { h with debit_amount := some col }
        else if subSearch "ACH_RETURN_AMOUNT".data ht then { h with return_amount := some col }
        else if ht = "Date".data then { h with date := some col }
        else h
  | _ => h

/-- Row cells of the first header pass, `app.py`. -/
def app_scanCells (h : Headers) (col : Nat) : List CellValue → Headers
  | [] => h
  | v :: rest => app_scanCells (app_headerCellStep h col v) (col + 1) rest

/-- First header pass with early stop, `app.py`. -/
def app_scanRows (h : Headers) (idx lastRow : Nat) : List (List CellValue) → Headers × Option Nat
  | [] => (h, none)
  | row :: rest =>
      let h2 := app_scanCells h 1 row
      let last2 := if row.isEmpty then lastRow else idx
      if 3 ≤ headersLen h2 then (h2, some last2)
      else app_scanRows h2 (idx + 1) last2 rest

/-- `CN`/`DN` cell step, `app.py`. -/
def app_cndnCellStep (h : Headers) (col : Nat) (v : CellValue) : Headers :=
  match v with
  | CellValue.Text s =>
      if s = "" then h
      else
        let ht := trimChars s.data
        if ht = "CN".data then { h with cn := some col }
        else if ht = "DN".data then { h with dn := some col }
        else h
  | _ => h

/-- `CN`/`DN` row cells, `app.py`. -/
def app_cndnScanCells (h : Headers) (col : Nat) : List CellValue → Headers
  | [] => h
  | v :: rest => app_cndnScanCells (app_cndnCellStep h col v) (col + 1) rest

/-- Second pass over the first 5 rows, `app.py`. -/
def app_cndnScanRows (h : Headers) (rows : List (List CellValue)) : Headers :=
  rows.foldl (fun a row => app_cndnScanCells a 1 row) h

/-- `all_transactions` entry of `app.py`. -/
def app_mkAllTxn (dpCol : Nat) (h : Headers) (folM folY : Nat) (row : List CellValue) : AllTxn :=
  { date := optCellValue h.date row,
    date_processed := cellAt row dpCol,
    debit := storedAmount (cellAt row (h.debit_amount.getD 0)),
    ret := storedAmount (cellAt row (h.return_amount.getD 0)),
    cn := optCellValue h.cn row,
    dn := optCellValue h.dn row,
    is_following_month :=
      match app_parse_date (cellAt row dpCol) with
      | some d => d.month == folM && d.year == folY
      | none => false }

/-- Pure loop-iteration body, `app.py`. -/
def app_stepRow (dpCol : Nat) (h : Headers) (folM folY : Nat) (st : LoopState)
    (row : List CellValue) : LoopState :=
  if cellTruthy (cellAt row dpCol) = false then st
  else
    let txn := app_mkAllTxn dpCol h folM folY row
    let st1 := { st with all_transactions := st.all_transactions ++ [txn] }
    if txn.is_following_month then
      { st1 with
        total_debit := st1.total_debit + coerceAmount (cellAt row (h.debit_amount.getD 0)),
        total_return := st1.total_return + coerceAmount (cellAt row (h.return_amount.getD 0)),
        transactions := st1.transactions ++ [mkFiltTxn txn] }
    else st1

/-- Loop iteration with the `KeyError` channel, `app.py`. -/
def app_processRow (dpCol : Nat) (h : Headers) (folM folY : Nat) (st : LoopState)
    (row : List CellValue) : Option LoopState :=
  if cellTruthy (cellAt row dpCol) = false then some st
  else if h.debit_amount.isSome && h.return_amount.isSome then
    some (app_stepRow dpCol h folM folY st row)
  else none

/-- `process_transaction_file` of `app.py`: identical processing, but
failures are reported to the caller as `(None, message)` pairs
(`Except.error`); the two uncaught exceptions surface as exceptions to the
web framework and are modelled as dedicated error strings. -/
def app_process_transaction_file (nowYear : Nat) (filename : String)
    (grid : List (List CellValue)) : Except String Result :=
  match app_extract_month_from_filename nowYear filename with
  | none => Except.error "Could not extract month from filename"
  | some fmfy =>
      let fol := app_get_following_month fmfy.1 fmfy.2
      let scan := app_scanRows {} 1 0 (grid.take 5)
      match scan.1.date_processed with
      | none => Except.error "Could not find 'Date processed' column"
      | some dpCol =>
          let h := app_cndnScanRows scan.1 (grid.take 5)
          match scan.2 with
          | none => Except.error "NameError: header_row"
          | some header_row =>
              match List.foldlM (app_processRow dpCol h fol.1 fol.2) {} (grid.drop header_row) with
              | none => Except.error "KeyError: amount column"
              | some st =>
                  Except.ok { file_month := fmfy.1, file_year := fmfy.2,
                              following_month := fol.1, following_year := fol.2,
                              total_debit := st.total_debit, total_return := st.total_return,
                              net_amount := st.total_debit - st.total_return,
                              transactions := st.transactions,
                              all_transactions := st.all_transactions,
                              filename := filename }

/-! ### Claims about the journal-entry builder -/

/-- C1: for every `AggregateResult`, a positive net amount yields line 1 =
debit `abs(net)` to the Customer-Funds-Obligation account and line 2 =
credit `abs(net)` to the Other-Current-Liabilities-Accrued account, a
negative net amount the same two accounts with the debit/credit columns
flipped; every emitted line carries `date` = last calendar day of the
source month (`calendar.monthrange`), `reversalDate` = first day of the
following period, and `memo` = the fixed label followed by the source
period as zero-padded month and full year. -/
theorem c1_journal_entry_postcondition (r : Result) (h : r.net_amount ≠ 0) :
    journal_entry_lines r =
      (if 0 < r.net_amount then
        [{ debit := some |r.net_amount|, credit := none,
           date := toString r.file_month ++ "/"
             ++ toString (monthrange_days r.file_year r.file_month) ++ "/"
             ++ toString r.file_year,
           reversal_date := toString r.following_month ++ "/1/" ++ toString r.following_year,
           memo := "dLocal Pending Debits " ++ fmt02 r.file_month ++ "." ++ toString r.file_year,
           account := "22010 - Customer Funds Obligation : Customer Funds Liability",
           department := "0000 Corporate", location := "1 San Francisco", name := none,
           subsidiary := "Gusto Inc Global : Gusto Inc US",
           je_memo := "dLocal Pending Debits " ++ fmt02 r.file_month ++ "." ++ toString r.file_year,
           class_dim := "601 Horizontal" },
         { debit := none, credit := some |r.net_amount|,
           date := toString r.file_month ++ "/"
             ++ toString (monthrange_days r.file_year r.file_month) ++ "/"
             ++ toString r.file_year,
           reversal_date := toString r.following_month ++ "/1/" ++ toString r.following_year,
           memo := "dLocal Pending Debits " ++ fmt02 r.file_month ++ "." ++ toString r.file_year,
           account := "21017 - Other Current Liabilities : Accrued Liabilities - Platform",
           department := "0000 Corporate", location := "1 San Francisco", name := none,
           subsidiary := "Gusto Inc Global : Gusto Inc US",
           je_memo := "dLocal Pending Debits " ++ fmt02 r.file_month ++ "." ++ toString r.file_year,
           class_dim := "601 Horizontal" }]
      else
        [{ debit := none, credit := some |r.net_amount|,
           date := toString r.file_month ++ "/"
             ++ toString (monthrange_days r.file_year r.file_month) ++ "/"
             ++ toString r.file_year,
           reversal_date := toString r.following_month ++ "/1/" ++ toString r.following_year,
           memo := "dLocal Pending Debits " ++ fmt02 r.file_month ++ "." ++ toString r.file_year,
           account := "22010 - Customer Funds Obligation : Customer Funds Liability",
           department := "0000 Corporate", location := "1 San Francisco", name := none,
           subsidiary := "Gusto Inc Global : Gusto Inc US",
           je_memo := "dLocal Pending Debits " ++ fmt02 r.file_month ++ "." ++ toString r.file_year,
           class_dim := "601 Horizontal" },
         { debit := some |r.net_amount|, credit := none,
           date := toString r.file_month ++ "/"
             ++ toString (monthrange_days r.file_year r.file_month) ++ "/"
             ++ toString r.file_year,
           reversal_date := toString r.following_month ++ "/1/" ++ toString r.following_year,
           memo := "dLocal Pending Debits " ++ fmt02 r.file_month ++ "." ++ toString r.file_year,
           account := "21017 - Other Current Liabilities : Accrued Liabilities - Platform",
           department := "0000 Corporate", location := "1 San Francisco", name := none,
           subsidiary := "Gusto Inc Global : Gusto Inc US",
           je_memo := "dLocal Pending Debits " ++ fmt02 r.file_month ++ "." ++ toString r.file_year,
           class_dim := "601 Horizontal" }]) := by
  unfold journal_entry_lines
  by_cases hp : 0 < r.net_amount
  · by_cases hm : r.file_month = 12 <;> simp [hp, hm]
  · have hn : r.net_amount < 0 := lt_of_le_of_ne (not_lt.mp hp) h
    by_cases hm : r.file_month = 12 <;> simp [hp, hn, hm]

/-- Witness for C1 at a concrete aggregate with net amount 120. -/
theorem c1_witness :
    journal_entry_lines
        { file_month := 9, file_year := 2025, following_month := 10, following_year := 2025,
          total_debit := 150, total_return := 30, net_amount := 120,
          transactions := [], all_transactions := [], filename := "test.xlsx" } =
      (if 0 < (120 : ℚ) then
        [{ debit := some |(120 : ℚ)|, credit := none, date := "9/30/2025",
           reversal_date := "10/1/2025", memo := "dLocal Pending Debits 09.2025",
           account := "22010 - Customer Funds Obligation : Customer Funds Liability",
           department := "0000 Corporate", location := "1 San Francisco", name := none,
           subsidiary := "Gusto Inc Global : Gusto Inc US",
           je_memo := "dLocal Pending Debits 09.2025", class_dim := "601 Horizontal" },
         { debit := none, credit := some |(120 : ℚ)|, date := "9/30/2025",
           reversal_date := "10/1/2025", memo := "dLocal Pending Debits 09.2025",
           account := "21017 - Other Current Liabilities : Accrued Liabilities - Platform",
           department := "0000 Corporate", location := "1 San Francisco", name := none,
           subsidiary := "Gusto Inc Global : Gusto Inc US",
           je_memo := "dLocal Pending Debits 09.2025", class_dim := "601 Horizontal" }]
      else
        [{ debit := none, credit := some |(120 : ℚ)|, date := "9/30/2025",
           reversal_date := "10/1/2025", memo := "dLocal Pending Debits 09.2025",
           account := "22010 - Customer Funds Obligation : Customer Funds Liability",
           department := "0000 Corporate", location := "1 San Francisco", name := none,
           subsidiary := "Gusto Inc Global : Gusto Inc US",
           je_memo := "dLocal Pending Debits 09.2025", class_dim := "601 Horizontal" },
         { debit := some |(120 : ℚ)|, credit := none, date := "9/30/2025",
           reversal_date := "10/1/2025", memo := "dLocal Pending Debits 09.2025",
           account := "21017 - Other Current Liabilities : Accrued Liabilities - Platform",
           department := "0000 Corporate", location := "1 San Francisco", name := none,
           subsidiary := "Gusto Inc Global : Gusto Inc US",
           je_memo := "dLocal Pending Debits 09.2025", class_dim := "601 Horizontal" }]) := by
  have := c1_journal_entry_postcondition
      { file_month := 9, file_year := 2025, following_month := 10, following_year := 2025,
        total_debit := 150, total_return := 30, net_amount := 120,
        transactions := [], all_transactions := [], filename := "test.xlsx" }
      (by norm_num)
  simpa [monthrange_days, calendar_mdays, calendar_isleap, fmt02] using this

/-- C2: the journal entry is empty exactly when the net amount is zero;
otherwise it has exactly 2 lines, each line populates exactly one of the
debit/credit columns, and the debit amounts and the credit amounts each
sum to `abs(netAmount)`. -/
theorem c2_balance_invariant (r : Result) :
    (journal_entry_lines r = [] ↔ r.net_amount = 0) ∧
    (r.net_amount = 0 ∨
      ((journal_entry_lines r).length = 2 ∧
       (∀ l ∈ journal_entry_lines r,
          (l.debit.isSome = true ∧ l.credit = none) ∨
            (l.debit = none ∧ l.credit.isSome = true)) ∧
       ((journal_entry_lines r).map (fun l => l.debit.getD 0)).sum = |r.net_amount| ∧
       ((journal_entry_lines r).map (fun l => l.credit.getD 0)).sum = |r.net_amount|)) := by
  rcases lt_trichotomy r.net_amount 0 with hn | hz | hp
  · have hp' : ¬0 < r.net_amount := not_lt.mpr hn.le
    constructor
    · simp [journal_entry_lines, hp', hn, hn.ne]
    · right
      refine ⟨by simp [journal_entry_lines, hp', hn], ?_, ?_, ?_⟩ <;>
        simp [journal_entry_lines, hp', hn]
  · constructor
    · simp [journal_entry_lines, hz]
    · exact Or.inl hz
  · constructor
    · simp [journal_entry_lines, hp, hp.ne']
    · right
      refine ⟨by simp [journal_entry_lines, hp], ?_, ?_, ?_⟩ <;>
        simp [journal_entry_lines, hp]

/-! ### Loop characterization lemmas -/

/-- The row-retention predicate: a row is processed iff its
`date_processed` cell is truthy. -/
def keepRow (dpCol : Nat) (row : List CellValue) : Bool :=
  cellTruthy (cellAt row dpCol)

/-- The raw value stored in a transaction coerces to the same amount as
the original cell value. -/
theorem coerceAmount_storedAmount (v : CellValue) :
    coerceAmount (storedAmount v) = coerceAmount v := by
  unfold storedAmount coerceAmount
  split
  · rfl
  · next hc => simp [cellTruthy, if_neg]

/-- With both amount columns present the loop never raises, and each
iteration is the pure `stepRow`. -/
theorem processRow_eq_stepRow (dpCol : Nat) (h : Headers) (folM folY : Nat)
    (hcols : (h.debit_amount.isSome && h.return_amount.isSome) = true)
    (st : LoopState) (row : List CellValue) :
    processRow dpCol h folM folY st row = some (stepRow dpCol h folM folY st row) := by
  unfold processRow stepRow
  split
  · next hskip => simp [hskip]
  · simp [hcols]

/-- With both amount columns present, the `foldlM` over the data rows is
the pure fold. -/
theorem foldlM_processRow (dpCol : Nat) (h : Headers) (folM folY : Nat)
    (hcols : (h.debit_amount.isSome && h.return_amount.isSome) = true) :
    ∀ (rows : List (List CellValue)) (st : LoopState),
      List.foldlM (processRow dpCol h folM folY) st rows =
        some (rows.foldl (stepRow dpCol h folM folY) st) := by
  intro rows
  induction rows with
  | nil => intro st; rfl
  | cons row rest ih =>
      intro st
      rw [List.foldlM_cons, processRow_eq_stepRow dpCol h folM folY hcols st row]
      simpa using ih (stepRow dpCol h folM folY st row)

/-- With an amount column missing, the loop succeeds only when every row
was skipped, leaving the state untouched. -/
theorem foldlM_processRow_nocols (dpCol : Nat) (h : Headers) (folM folY : Nat)
    (hcols : (h.debit_amount.isSome && h.return_amount.isSome) = false) :
    ∀ (rows : List (List CellValue)) (st st' : LoopState),
      List.foldlM (processRow dpCol h folM folY) st rows = some st' →
        st' = st ∧ rows.filter (keepRow dpCol) = [] := by
  intro rows
  induction rows with
  | nil =>
      intro st st' hfold
      have hst : st = st' := by simpa using hfold
      exact ⟨hst.symm, rfl⟩
  | cons row rest ih =>
      intro st st' hfold
      rw [List.foldlM_cons] at hfold
      by_cases hskip : cellTruthy (cellAt row dpCol) = false
      · rw [show processRow dpCol h folM folY st row = some st by
            unfold processRow; simp [hskip]] at hfold
        have := ih st st' (by simpa using hfold)
        refine ⟨this.1, ?_⟩
        simp [List.filter_cons, keepRow, hskip, this.2]
      · exfalso
        have : processRow dpCol h folM folY st row = none := by
          unfold processRow
          simp [hskip, hcols]
        rw [this] at hfold
        simp at hfold

/-- Flag of a built transaction. -/
theorem mkAllTxn_flag (dpCol : Nat) (h : Headers) (folM folY : Nat) (row : List CellValue) :
    (mkAllTxn dpCol h folM folY row).is_following_month =
      rowMatchesVal folM folY (cellAt row dpCol) := rfl

/-- Filtering a mapped list is mapping the filtered list. -/
theorem map_filter_comm {α β : Type} (f : α → β) (p : β → Bool) :
    ∀ l : List α, (l.map f).filter p = (l.filter (fun a => p (f a))).map f := by
  intro l
  induction l with
  | nil => rfl
  | cons a rest ih =>
      by_cases hpa : p (f a) = true
      · simp [List.filter_cons, hpa, ih]
      · simp only [Bool.not_eq_true] at hpa
        simp [List.filter_cons, hpa, ih]

/-- Full characterization of the transaction loop: the retained rows are
recorded in order in `all_transactions`, the matching subset in
`transactions`, and the totals accumulate the coerced amounts of exactly
the matching rows. -/
theorem foldl_stepRow_spec (dpCol : Nat) (h : Headers) (folM folY : Nat) :
    ∀ (rows : List (List CellValue)) (st : LoopState),
      (rows.foldl (stepRow dpCol h folM folY) st).all_transactions =
          st.all_transactions ++ (rows.filter (keepRow dpCol)).map (mkAllTxn dpCol h folM folY) ∧
      (rows.foldl (stepRow dpCol h folM folY) st).transactions =
          st.transactions ++
            (((rows.filter (keepRow dpCol)).filter
                (fun row => rowMatchesVal folM folY (cellAt row dpCol))).map
              (fun row => mkFiltTxn (mkAllTxn dpCol h folM folY row))) ∧
      (rows.foldl (stepRow dpCol h folM folY) st).total_debit =
          st.total_debit +
            (((rows.filter (keepRow dpCol)).filter
                (fun row => rowMatchesVal folM folY (cellAt row dpCol))).map
              (fun row => coerceAmount (cellAt row (h.debit_amount.getD 0)))).sum ∧
      (rows.foldl (stepRow dpCol h folM folY) st).total_return =
          st.total_return +
            (((rows.filter (keepRow dpCol)).filter
                (fun row => rowMatchesVal folM folY (cellAt row dpCol))).map
              (fun row => coerceAmount (cellAt row (h.return_amount.getD 0)))).sum := by
  intro rows
  induction rows with
  | nil => intro st; simp
  | cons row rest ih =>
      intro st
      by_cases hkeep : cellTruthy (cellAt row dpCol) = false
      · have hstep : stepRow dpCol h folM folY st row = st := by
          unfold stepRow; simp [hkeep]
        have hk : keepRow dpCol row = false := by simp [keepRow, hkeep]
        simpa [List.foldl_cons, hstep, List.filter_cons, hk] using ih st
      · have hk : keepRow dpCol row = true := by
          simp only [Bool.not_eq_false] at hkeep; simp [keepRow, hkeep]
        simp only [Bool.not_eq_false] at hkeep
        by_cases hm : rowMatchesVal folM folY (cellAt row dpCol) = true
        · have hstep : stepRow dpCol h folM folY st row =
              { total_debit := st.total_debit + coerceAmount (cellAt row (h.debit_amount.getD 0)),
                total_return := st.total_return + coerceAmount (cellAt row (h.return_amount.getD 0)),
                transactions := st.transactions ++ [mkFiltTxn (mkAllTxn dpCol h folM folY row)],
                all_transactions := st.all_transactions ++ [mkAllTxn dpCol h folM folY row] } := by
            unfold stepRow
            simp [hkeep, mkAllTxn_flag, hm]
          obtain ⟨iha, iht, ihd, ihr⟩ := ih (stepRow dpCol h folM folY st row)
          rw [List.foldl_cons] at *
          refine ⟨?_, ?_, ?_, ?_⟩
          · rw [iha, hstep]
            simp [List.filter_cons, hk, List.append_assoc]
          · rw [iht, hstep]
            simp [List.filter_cons, hk, hm, List.append_assoc]
          · rw [ihd, hstep]
            simp [List.filter_cons, hk, hm, add_assoc]
          · rw [ihr, hstep]
            simp [List.filter_cons, hk, hm, add_assoc]
        · simp only [Bool.not_eq_true] at hm
          have hstep : stepRow dpCol h folM folY st row =
              { st with all_transactions := st.all_transactions ++ [mkAllTxn dpCol h folM folY row] } := by
            unfold stepRow
            simp [hkeep, mkAllTxn_flag, hm]
          obtain ⟨iha, iht, ihd, ihr⟩ := ih (stepRow dpCol h folM folY st row)
          rw [List.foldl_cons] at *
          refine ⟨?_, ?_, ?_, ?_⟩
          · rw [iha, hstep]
            simp [List.filter_cons, hk, List.append_assoc]
          · rw [iht, hstep]
            simp [List.filter_cons, hk, hm]
          · rw [ihd, hstep]
            simp [List.filter_cons, hk, hm]
          · rw [ihr, hstep]
            simp [List.filter_cons, hk, hm]

/-- Debit field of a built transaction. -/
theorem mkAllTxn_debit (dpCol : Nat) (h : Headers) (folM folY : Nat) (row : List CellValue) :
    (mkAllTxn dpCol h folM folY row).debit =
      storedAmount (cellAt row (h.debit_amount.getD 0)) := rfl

/-- Return field of a built transaction. -/
theorem mkAllTxn_ret (dpCol : Nat) (h : Headers) (folM folY : Nat) (row : List CellValue) :
    (mkAllTxn dpCol h folM folY row).ret =
      storedAmount (cellAt row (h.return_amount.getD 0)) := rfl

/-- Filtering the built transactions on their flag is building the
transactions of the matching rows. -/
theorem filter_flag_map_mk (dpCol : Nat) (h : Headers) (folM folY : Nat)
    (rows : List (List CellValue)) :
    (rows.map (mkAllTxn dpCol h folM folY)).filter (fun t => t.is_following_month) =
      (rows.filter (fun row => rowMatchesVal folM folY (cellAt row dpCol))).map
        (mkAllTxn dpCol h folM folY) := by
  rw [map_filter_comm]
  rfl

/-- C3: for every processed input, `totalDebit` / `totalReturn` are the
sums of the coerced debit / return amounts over exactly the transactions
whose `matchesFollowingPeriod` flag is true, `netAmount` is their
difference, the matched subset is the flagged sublist of the full list,
and the full unfiltered transaction sequence is retained unchanged — one
entry per retained data row, in original row order. -/
theorem c3_aggregation (nowYear : Nat) (f : String) (grid : List (List CellValue)) (r : Result)
    (h : process_transaction_file nowYear f grid = some r) :
    r.total_debit = ((r.all_transactions.filter (fun t => t.is_following_month)).map
        (fun t => coerceAmount t.debit)).sum ∧
    r.total_return = ((r.all_transactions.filter (fun t => t.is_following_month)).map
        (fun t => coerceAmount t.ret)).sum ∧
    r.net_amount = r.total_debit - r.total_return ∧
    r.transactions = (r.all_transactions.filter (fun t => t.is_following_month)).map mkFiltTxn ∧
    ∃ dpCol header_row,
      (scanHeaders grid).1.date_processed = some dpCol ∧
      (scanHeaders grid).2 = some header_row ∧
      r.all_transactions = ((grid.drop header_row).filter (keepRow dpCol)).map
        (mkAllTxn dpCol (cndnScanRows (scanHeaders grid).1 (grid.take 5))
          r.following_month r.following_year) := by
  simp only [process_transaction_file] at h
  split at h
  · cases h
  next fmfy hex =>
    split at h
    · cases h
    next dpCol hdp =>
      split at h
      · cases h
      next header_row hrow =>
        split at h
        · cases h
        next st hfold =>
          obtain rfl : _ = r := Option.some.inj h
          dsimp only
          set hd := cndnScanRows (scanHeaders grid).1 (grid.take 5) with hhd
          set fol := get_following_month fmfy.1 fmfy.2 with hfol
          by_cases hcols : (hd.debit_amount.isSome && hd.return_amount.isSome) = true
          · rw [foldlM_processRow dpCol hd fol.1 fol.2 hcols] at hfold
            obtain rfl : _ = st := Option.some.inj hfold
            obtain ⟨ha, ht, hdbt, hret⟩ :=
              foldl_stepRow_spec dpCol hd fol.1 fol.2 (grid.drop header_row) {}
            simp only [List.nil_append, zero_add] at ha ht hdbt hret
            have hfd : ((fun t => coerceAmount t.debit) ∘ mkAllTxn dpCol hd fol.1 fol.2) =
                fun row => coerceAmount (cellAt row (hd.debit_amount.getD 0)) := by
              funext row
              simp [Function.comp, mkAllTxn_debit, coerceAmount_storedAmount]
            have hfr : ((fun t => coerceAmount t.ret) ∘ mkAllTxn dpCol hd fol.1 fol.2) =
                fun row => coerceAmount (cellAt row (hd.return_amount.getD 0)) := by
              funext row
              simp [Function.comp, mkAllTxn_ret, coerceAmount_storedAmount]
            refine ⟨?_, ?_, rfl, ?_, dpCol, header_row, hdp, hrow, ha⟩
            · rw [ha, hdbt, filter_flag_map_mk, List.map_map, hfd]
            · rw [ha, hret, filter_flag_map_mk, List.map_map, hfr]
            · rw [ha, ht, filter_flag_map_mk, List.map_map]
              rfl
          · have hcols' : (hd.debit_amount.isSome && hd.return_amount.isSome) = false := by
              simpa using hcols
            obtain ⟨rfl, hkeep⟩ :=
              foldlM_processRow_nocols dpCol hd fol.1 fol.2 hcols' (grid.drop header_row) {} st hfold
            refine ⟨by simp, by simp, by simp, by simp, dpCol, header_row, hdp, hrow, ?_⟩
            simp [hkeep]

/-- Concrete grid used by the witness for C3. -/
def c3SampleGrid : List (List CellValue) :=
  [[CellValue.Text "Date processed", CellValue.Text "ACH_DEBIT_AMOUNT",
    CellValue.Text "ACH_RETURN_AMOUNT"],
   [CellValue.Text "2/1/25", CellValue.Num 100, CellValue.Num 30],
   [CellValue.Text "1/15/25", CellValue.Num 7, CellValue.Num 2],
   [CellValue.Text "2/20/25", CellValue.Num 50, CellValue.Text "-"]]

/-- Concrete output of the pipeline on `c3SampleGrid`. -/
def c3SampleResult : Result :=
  { file_month := 1, file_year := 2025, following_month := 2, following_year := 2025,
    total_debit := 150, total_return := 30, net_amount := 120,
    transactions :=
      [{ date := CellValue.Text "", date_processed := CellValue.Text "2/1/25",
         debit := CellValue.Num 100, ret := CellValue.Num 30 },
       { date := CellValue.Text "", date_processed := CellValue.Text "2/20/25",
         debit := CellValue.Num 50, ret := CellValue.Num 0 }],
    all_transactions :=
      [{ date := CellValue.Text "", date_processed := CellValue.Text "2/1/25",
         debit := CellValue.Num 100, ret := CellValue.Num 30,
         cn := CellValue.Text "", dn := CellValue.Text "", is_following_month := true },
       { date := CellValue.Text "", date_processed := CellValue.Text "1/15/25",
         debit := CellValue.Num 7, ret := CellValue.Num 2,
         cn := CellValue.Text "", dn := CellValue.Text "", is_following_month := false },
       { date := CellValue.Text "", date_processed := CellValue.Text "2/20/25",
         debit := CellValue.Num 50, ret := CellValue.Num 0,
         cn := CellValue.Text "", dn := CellValue.Text "", is_following_month := true }],
    filename := "enero 2025.xlsx" }

/-- The pipeline produces `c3SampleResult` on the sample grid. -/
theorem c3_sample_run :
    process_transaction_file 2030 "enero 2025.xlsx" c3SampleGrid = some c3SampleResult := by
  have hex : extract_month_from_filename 2030 "enero 2025.xlsx" = some (1, 2025) := by decide
  have hscan : scanHeaders c3SampleGrid =
      ({ date_processed := some 1, debit_amount := some 2, return_amount := some 3,
         date := none, cn := none, dn := none }, some 1) := by decide
  have hcndn : cndnScanRows
      { date_processed := some 1, debit_amount := some 2, return_amount := some 3,
        date := none, cn := none, dn := none } (c3SampleGrid.take 5) =
      { date_processed := some 1, debit_amount := some 2, return_amount := some 3,
        date := none, cn := none, dn := none } := by decide
  have hpd1 : parse_date (CellValue.Text "2/1/25") = some ⟨2025, 2, 1⟩ := by decide
  have hpd2 : parse_date (CellValue.Text "1/15/25") = some ⟨2025, 1, 15⟩ := by decide
  have hpd3 : parse_date (CellValue.Text "2/20/25") = some ⟨2025, 2, 20⟩ := by decide
  have hfold : List.foldlM
      (processRow 1
        { date_processed := some 1, debit_amount := some 2, return_amount := some 3,
          date := none, cn := none, dn := none } 2 2025)
      ({} : LoopState) c3SampleGrid.tail = some
        { total_debit := 150, total_return := 30,
          transactions := c3SampleResult.transactions,
          all_transactions := c3SampleResult.all_transactions } := by
    rw [foldlM_processRow _ _ _ _ (by decide) c3SampleGrid.tail {}]
    simp +decide [c3SampleGrid, c3SampleResult, List.foldl, stepRow, mkAllTxn, mkFiltTxn,
      optCellValue, cellAt, List.getD, rowMatchesVal, hpd1, hpd2, hpd3, cellTruthy,
      storedAmount, coerceAmount]
    norm_num
  simp +decide [process_transaction_file, hex, hscan, hcndn, get_following_month, hfold,
    c3SampleResult]
  norm_num

/-- Witness for C3 at the concrete sample run. -/
theorem c3_witness :
    c3SampleResult.total_debit =
      ((c3SampleResult.all_transactions.filter (fun t => t.is_following_month)).map
        (fun t => coerceAmount t.debit)).sum ∧
    c3SampleResult.total_return =
      ((c3SampleResult.all_transactions.filter (fun t => t.is_following_month)).map
        (fun t => coerceAmount t.ret)).sum ∧
    c3SampleResult.net_amount = c3SampleResult.total_debit - c3SampleResult.total_return ∧
    c3SampleResult.transactions =
      (c3SampleResult.all_transactions.filter (fun t => t.is_following_month)).map mkFiltTxn ∧
    ∃ dpCol header_row,
      (scanHeaders c3SampleGrid).1.date_processed = some dpCol ∧
      (scanHeaders c3SampleGrid).2 = some header_row ∧
      c3SampleResult.all_transactions =
        ((c3SampleGrid.drop header_row).filter (keepRow dpCol)).map
          (mkAllTxn dpCol (cndnScanRows (scanHeaders c3SampleGrid).1 (c3SampleGrid.take 5))
            c3SampleResult.following_month c3SampleResult.following_year) :=
  c3_aggregation 2030 "enero 2025.xlsx" c3SampleGrid c3SampleResult c3_sample_run

/-! ### Claims about cell coercion -/

/-- C5: amount coercion is total and lenient — an empty cell (or empty
text) and the literal `'-'` placeholder give `0`; any other text is parsed
as a float after stripping the comma thousands separators, a parse failure
silently defaulting to `0` (`Option.getD 0`); numeric cells pass through;
and a retained row always yields a transaction regardless of its amount
cells — rows are never rejected for a bad amount. -/
theorem c5_amount_leniency (s : String) (dpCol : Nat) (h : Headers) (folM folY : Nat)
    (st : LoopState) (row : List CellValue)
    (hcols : (h.debit_amount.isSome && h.return_amount.isSome) = true)
    (hkeep : cellTruthy (cellAt row dpCol) = true) :
    coerceAmount CellValue.Empty = 0 ∧
    coerceAmount (CellValue.Text "") = 0 ∧
    coerceAmount (CellValue.Text "-") = 0 ∧
    (¬s = "" → ¬s = "-" →
      coerceAmount (CellValue.Text s) = (parsePyFloat (removeCommas s)).getD 0) ∧
    (∀ q : ℚ, coerceAmount (CellValue.Num q) = q) ∧
    ∃ st' : LoopState,
      processRow dpCol h folM folY st row = some st' ∧
      st'.all_transactions = st.all_transactions ++ [mkAllTxn dpCol h folM folY row] := by
  refine ⟨rfl, by decide, by decide, ?_, ?_, ?_⟩
  · intro hne hdash
    unfold coerceAmount
    rw [if_pos]
    constructor
    · simpa [cellTruthy] using hne
    · simp [hdash]
  · intro q
    by_cases hq : q = 0
    · subst hq
      simp [coerceAmount, cellTruthy]
    · unfold coerceAmount
      rw [if_pos]
      constructor
      · simp [cellTruthy, hq]
      · simp
  · refine ⟨stepRow dpCol h folM folY st row, ?_, ?_⟩
    · unfold processRow
      simp [hkeep, hcols]
    · unfold stepRow
      rw [if_neg (by simp [hkeep])]
      dsimp only
      split <;> simp

/-- Witness for C5 on a concrete retained row with a numeric and a text
amount cell. -/
theorem c5_witness :
    coerceAmount CellValue.Empty = 0 ∧
    coerceAmount (CellValue.Text "") = 0 ∧
    coerceAmount (CellValue.Text "-") = 0 ∧
    (¬("1,234.50" : String) = "" → ¬("1,234.50" : String) = "-" →
      coerceAmount (CellValue.Text "1,234.50") = (parsePyFloat (removeCommas "1,234.50")).getD 0) ∧
    (∀ q : ℚ, coerceAmount (CellValue.Num q) = q) ∧
    ∃ st' : LoopState,
      processRow 1
          { date_processed := some 1, debit_amount := some 2, return_amount := some 3,
            date := none, cn := none, dn := none } 2 2025 {}
          [CellValue.Text "garbled", CellValue.Text "1,234.50", CellValue.Num 3] = some st' ∧
      st'.all_transactions = ({} : LoopState).all_transactions ++
        [mkAllTxn 1
          { date_processed := some 1, debit_amount := some 2, return_amount := some 3,
            date := none, cn := none, dn := none } 2 2025
          [CellValue.Text "garbled", CellValue.Text "1,234.50", CellValue.Num 3]] :=
  c5_amount_leniency "1,234.50" 1
    { date_processed := some 1, debit_amount := some 2, return_amount := some 3,
      date := none, cn := none, dn := none } 2 2025 {}
    [CellValue.Text "garbled", CellValue.Text "1,234.50", CellValue.Num 3]
    (by decide) (by decide)

/-- C6 (counterexample to the claim as stated): a `date_processed` cell
holding the empty string is text on which every format fails, yet the row
is not recorded in the full transaction list — the code's truthiness guard
skips it entirely, where the claim says it is still recorded. -/
theorem c6_counterexample :
    parse_date (CellValue.Text "") = none ∧
    Option.map (fun r => r.all_transactions)
      (process_transaction_file 2025 "enero 2025.xlsx"
        [[CellValue.Text "Date processed", CellValue.Text "ACH_DEBIT_AMOUNT",
          CellValue.Text "ACH_RETURN_AMOUNT"],
         [CellValue.Text "", CellValue.Num 5, CellValue.Num 1]]) = some [] := by
  constructor
  · decide
  · decide

/-- C6 as amended: a date/time cell value is used as-is; a text cell is
tried against the three formats in order with the first success winning;
`matchesFollowingPeriod` holds exactly when the parsed date's month and
year equal the following period's; and a row whose `date_processed` cell
holds NON-EMPTY text on which every format fails is still recorded with a
false flag, contributing nothing to the totals or to the matched subset
(a row whose cell holds the empty string is skipped entirely, like an
empty cell). -/
theorem c6_amended_date_coercion (dpCol : Nat) (h : Headers) (folM folY : Nat)
    (st : LoopState) (row : List CellValue) (s : String)
    (hcols : (h.debit_amount.isSome && h.return_amount.isSome) = true)
    (hcell : cellAt row dpCol = CellValue.Text s)
    (hne : ¬s = "")
    (hfail : parse_date (CellValue.Text s) = none) :
    (∀ d, parse_date (CellValue.Date d) = some d) ∧
    (∀ t : String, ∀ d, strptime_mdy2 t.data = some d →
        parse_date (CellValue.Text t) = some d) ∧
    (∀ t : String, strptime_mdy2 t.data = none →
        parse_date (CellValue.Text t) =
          (match strptime_mdy4 t.data with
           | some d => some d
           | none => strptime_ymd t.data)) ∧
    (∀ v : CellValue, rowMatchesVal folM folY v = true ↔
        ∃ d, parse_date v = some d ∧ d.month = folM ∧ d.year = folY) ∧
    ∃ st', processRow dpCol h folM folY st row = some st' ∧
      st'.all_transactions = st.all_transactions ++ [mkAllTxn dpCol h folM folY row] ∧
      (mkAllTxn dpCol h folM folY row).is_following_month = false ∧
      st'.total_debit = st.total_debit ∧ st'.total_return = st.total_return ∧
      st'.transactions = st.transactions := by
  have hflag : rowMatchesVal folM folY (cellAt row dpCol) = false := by
    rw [hcell]
    unfold rowMatchesVal
    rw [hfail]
  refine ⟨fun d => rfl, ?_, ?_, ?_, ?_⟩
  · intro t d hs
    simp only [parse_date, hs]
  · intro t hs
    simp only [parse_date, hs]
  · intro v
    unfold rowMatchesVal
    cases hpv : parse_date v with
    | none => simp [hpv]
    | some d =>
        simp only [hpv]
        constructor
        · intro hb
          simp only [Bool.and_eq_true, beq_iff_eq] at hb
          exact ⟨d, rfl, hb.1, hb.2⟩
        · rintro ⟨d', hd', hm, hy⟩
          obtain rfl : d = d' := Option.some.inj hd'
          simp [hm, hy]
  · have hkeep : cellTruthy (cellAt row dpCol) = true := by
      rw [hcell]
      simpa [cellTruthy] using hne
    have hstep : stepRow dpCol h folM folY st row =
        { st with all_transactions := st.all_transactions ++ [mkAllTxn dpCol h folM folY row] } := by
      unfold stepRow
      rw [if_neg (by simp [hkeep])]
      dsimp only
      rw [if_neg (by simp [mkAllTxn_flag, hflag])]
    refine ⟨stepRow dpCol h folM folY st row, ?_, ?_, ?_, ?_, ?_, ?_⟩
    · unfold processRow
      simp [hkeep, hcols]
    · rw [hstep]
    · rw [mkAllTxn_flag]
      exact hflag
    · rw [hstep]
    · rw [hstep]
    · rw [hstep]

/-- Witness for C6 as amended, on a concrete row whose processed-date cell
holds unparseable non-empty text. -/
theorem c6_witness :
    (∀ d, parse_date (CellValue.Date d) = some d) ∧
    (∀ t : String, ∀ d, strptime_mdy2 t.data = some d →
        parse_date (CellValue.Text t) = some d) ∧
    (∀ t : String, strptime_mdy2 t.data = none →
        parse_date (CellValue.Text t) =
          (match strptime_mdy4 t.data with
           | some d => some d
           | none => strptime_ymd t.data)) ∧
    (∀ v : CellValue, rowMatchesVal 2 2025 v = true ↔
        ∃ d, parse_date v = some d ∧ d.month = 2 ∧ d.year = 2025) ∧
    ∃ st', processRow 1
        { date_processed := some 1, debit_amount := some 2, return_amount := some 3,
          date := none, cn := none, dn := none } 2 2025 {}
        [CellValue.Text "not a date", CellValue.Num 5, CellValue.Num 3] = some st' ∧
      st'.all_transactions = ({} : LoopState).all_transactions ++
        [mkAllTxn 1
          { date_processed := some 1, debit_amount := some 2, return_amount := some 3,
            date := none, cn := none, dn := none } 2 2025
          [CellValue.Text "not a date", CellValue.Num 5, CellValue.Num 3]] ∧
      (mkAllTxn 1
          { date_processed := some 1, debit_amount := some 2, return_amount := some 3,
            date := none, cn := none, dn := none } 2 2025
          [CellValue.Text "not a date", CellValue.Num 5, CellValue.Num 3]).is_following_month
        = false ∧
      st'.total_debit = ({} : LoopState).total_debit ∧
      st'.total_return = ({} : LoopState).total_return ∧
      st'.transactions = ({} : LoopState).transactions :=
  c6_amended_date_coercion 1
    { date_processed := some 1, debit_amount := some 2, return_amount := some 3,
      date := none, cn := none, dn := none } 2 2025 {}
    [CellValue.Text "not a date", CellValue.Num 5, CellValue.Num 3] "not a date"
    (by decide) (by decide) (by decide) (by decide)

/-! ### Claims about the header scan -/

/-- Recognition predicate for the `date_processed` field as the code
actually implements it: a truthy text cell whose trimmed text contains the
exact substring `"Date processed"` or `"Date Processed"` — case-sensitive
apart from the capitalization of `processed`. -/
def dpHeaderMatch : CellValue → Bool
  | CellValue.Text s =>
      if s = "" then false
      else subSearch "Date processed".data (trimChars s.data)
        || subSearch "Date Processed".data (trimChars s.data)
  | _ => false

/-- The cell step records the cell's column for `date_processed` exactly
when `dpHeaderMatch` holds, and leaves the field alone otherwise. -/
theorem headerCellStep_dp (h : Headers) (col : Nat) (v : CellValue) :
    (headerCellStep h col v).date_processed =
      if dpHeaderMatch v then some col else h.date_processed := by
  cases v with
  | Text s =>
      by_cases hs : s = ""
      · simp [headerCellStep, dpHeaderMatch, hs]
      · simp only [headerCellStep, dpHeaderMatch, hs, if_neg hs]
        split_ifs <;> first | rfl | contradiction
  | Empty => rfl
  | Num q => rfl
  | Date d => rfl

/-- Soundness of the cell scan for `date_processed`: a recorded column
comes from the initial state or from a matching cell at that column. -/
theorem scanCells_dp_sound (cells : List CellValue) :
    ∀ (h : Headers) (col c : Nat),
      (scanCells h col cells).date_processed = some c →
        h.date_processed = some c ∨
          ∃ i v, cells.get? i = some v ∧ dpHeaderMatch v = true ∧ c = col + i := by
  induction cells with
  | nil => intro h col c hc; exact Or.inl hc
  | cons v rest ih =>
      intro h col c hc
      rcases ih (headerCellStep h col v) (col + 1) c hc with h1 | ⟨i, w, hw, hm, hci⟩
      · rw [headerCellStep_dp] at h1
        by_cases hm : dpHeaderMatch v = true
        · rw [if_pos hm] at h1
          exact Or.inr ⟨0, v, rfl, hm, by simpa using (Option.some.inj h1).symm⟩
        · rw [if_neg hm] at h1
          exact Or.inl h1
      · exact Or.inr ⟨i + 1, w, by simpa using hw, hm, by omega⟩

/-- Soundness of the row scan for `date_processed`. -/
theorem scanRows_dp_sound (rows : List (List CellValue)) :
    ∀ (h : Headers) (idx lastRow c : Nat),
      (scanRows h idx lastRow rows).1.date_processed = some c →
        h.date_processed = some c ∨
          ∃ row ∈ rows, ∃ i v, row.get? i = some v ∧ dpHeaderMatch v = true ∧ c = 1 + i := by
  induction rows with
  | nil => intro h idx lastRow c hc; exact Or.inl hc
  | cons row rest ih =>
      intro h idx lastRow c hc
      unfold scanRows at hc
      dsimp only at hc
      by_cases h3 : 3 ≤ headersLen (scanCells h 1 row)
      · rw [if_pos h3] at hc
        dsimp only at hc
        rcases scanCells_dp_sound row h 1 c hc with h1 | ⟨i, v, hv, hm, hci⟩
        · exact Or.inl h1
        · exact Or.inr ⟨row, by simp, i, v, hv, hm, hci⟩
      · rw [if_neg h3] at hc
        rcases ih (scanCells h 1 row) _ _ c hc with h1 | ⟨row', hrow', i, v, hv, hm, hci⟩
        · rcases scanCells_dp_sound row h 1 c h1 with h2 | ⟨i, v, hv, hm, hci⟩
          · exact Or.inl h2
          · exact Or.inr ⟨row, by simp, i, v, hv, hm, hci⟩
        · exact Or.inr ⟨row', by simp [hrow'], i, v, hv, hm, hci⟩

/-- C7 as amended: when the header scan records column `c` for
`date_processed`, some cell of the scanned first-5-row region at that
column position matches, where recognition is the exact substring test for
`"Date processed"` or `"Date Processed"` (only the capitalization of
`processed` varies) — not a case-insensitive test: `"DATE PROCESSED"` and
`"date processed"` are not recognized. -/
theorem c7_amended_header_recognition (grid : List (List CellValue)) (c : Nat)
    (hc : (scanHeaders grid).1.date_processed = some c) :
    (∃ row ∈ grid.take 5, ∃ i v, row.get? i = some v ∧ dpHeaderMatch v = true ∧ c = 1 + i) ∧
    (∀ (h : Headers) (col : Nat) (v : CellValue),
        (headerCellStep h col v).date_processed =
          if dpHeaderMatch v then some col else h.date_processed) ∧
    dpHeaderMatch (CellValue.Text "Date processed") = true ∧
    dpHeaderMatch (CellValue.Text "  Date Processed (UTC)  ") = true ∧
    dpHeaderMatch (CellValue.Text "DATE PROCESSED") = false ∧
    dpHeaderMatch (CellValue.Text "date processed") = false := by
  refine ⟨?_, headerCellStep_dp, by decide, by decide, by decide, by decide⟩
  rcases scanRows_dp_sound (grid.take 5) {} 1 0 c hc with h1 | h2
  · cases h1
  · exact h2

/-- Witness for C7 as amended on a grid whose second cell carries the
`Date Processed` phrase. -/
theorem c7_witness :
    (∃ row ∈ ([[CellValue.Text "foo", CellValue.Text "Date Processed"]] :
        List (List CellValue)).take 5, ∃ i v, row.get? i = some v ∧
        dpHeaderMatch v = true ∧ 2 = 1 + i) ∧
    (∀ (h : Headers) (col : Nat) (v : CellValue),
        (headerCellStep h col v).date_processed =
          if dpHeaderMatch v then some col else h.date_processed) ∧
    dpHeaderMatch (CellValue.Text "Date processed") = true ∧
    dpHeaderMatch (CellValue.Text "  Date Processed (UTC)  ") = true ∧
    dpHeaderMatch (CellValue.Text "DATE PROCESSED") = false ∧
    dpHeaderMatch (CellValue.Text "date processed") = false :=
  c7_amended_header_recognition [[CellValue.Text "foo", CellValue.Text "Date Processed"]] 2
    (by decide)

/-- C7 (counterexample to the claim as stated): a first-row cell whose
trimmed text contains "date processed" case-insensitively (here
`"DATE PROCESSED"`) is NOT recorded as the `date_processed` column — the
code's substring test is case-sensitive apart from `processed`/`Processed`
— and the whole run fails with `HeaderNotFound` despite the cell being
present. -/
theorem c7_counterexample :
    subSearch "date processed".data ((trimChars "DATE PROCESSED".data).map Char.toLower)
        = true ∧
    (scanHeaders [[CellValue.Text "DATE PROCESSED", CellValue.Text "ACH_DEBIT_AMOUNT",
        CellValue.Text "ACH_RETURN_AMOUNT"]]).1.date_processed = none ∧
    process_transaction_file 2025 "enero 2025.xlsx"
      [[CellValue.Text "DATE PROCESSED", CellValue.Text "ACH_DEBIT_AMOUNT",
        CellValue.Text "ACH_RETURN_AMOUNT"]] = none := by
  refine ⟨by decide, by decide, by decide⟩

/-- Cumulative header state after scanning a prefix of the rows (the
Python `headers` dict is carried across rows, never reset). -/
def cumScan (h : Headers) (rows : List (List CellValue)) : Headers :=
  rows.foldl (fun a row => scanCells a 1 row) h

/-- Unfolding `cumScan` over a leading row. -/
theorem cumScan_cons (h : Headers) (row : List CellValue) (rest : List (List CellValue))
    (j : Nat) :
    cumScan h ((row :: rest).take (j + 1)) = cumScan (scanCells h 1 row) (rest.take j) := by
  simp [cumScan, List.take_succ_cons, List.foldl_cons]

/-- The early-stopped row scan stops exactly at the first row index where
the CUMULATIVE count of recorded fields reaches 3 (for grids without
empty rows, as openpyxl produces). -/
theorem scanRows_stop_iff (rows : List (List CellValue)) :
    ∀ (h : Headers) (idx lastRow : Nat), (∀ row ∈ rows, row ≠ []) →
      ∀ k, (scanRows h idx lastRow rows).2 = some k ↔
        ∃ j, j < rows.length ∧ k = idx + j ∧
          3 ≤ headersLen (cumScan h (rows.take (j + 1))) ∧
          ∀ i, i < j → headersLen (cumScan h (rows.take (i + 1))) < 3 := by
  induction rows with
  | nil => intro h idx lastRow hne k; simp [scanRows]
  | cons row rest ih =>
      intro h idx lastRow hne k
      have hrow : row ≠ [] := hne row (by simp)
      have hre : row.isEmpty = false := by simpa using hrow
      unfold scanRows
      dsimp only
      rw [hre, if_neg Bool.false_ne_true]
      by_cases h3 : 3 ≤ headersLen (scanCells h 1 row)
      · rw [if_pos h3]
        dsimp only
        constructor
        · intro hk
          obtain rfl : idx = k := Option.some.inj hk
          refine ⟨0, by simp, by omega, ?_, fun i hi => absurd hi (by omega)⟩
          simpa [cumScan] using h3
        · rintro ⟨j, hjlen, hkj, hj3, hjlt⟩
          cases j with
          | zero => simp [hkj]
          | succ j' =>
              exfalso
              have := hjlt 0 (Nat.succ_pos j')
              rw [show cumScan h ((row :: rest).take (0 + 1)) = scanCells h 1 row by
                simp [cumScan]] at this
              omega
      · rw [if_neg h3]
        rw [ih (scanCells h 1 row) (idx + 1) idx (fun r hr => hne r (by simp [hr])) k]
        constructor
        · rintro ⟨j', hj'len, hkj', hj'3, hj'lt⟩
          refine ⟨j' + 1, by simpa using Nat.succ_lt_succ hj'len, by omega, ?_, ?_⟩
          · rw [cumScan_cons]
            exact hj'3
          · intro i hi
            cases i with
            | zero =>
                rw [show cumScan h ((row :: rest).take (0 + 1)) = scanCells h 1 row by
                  simp [cumScan]]
                omega
            | succ i' =>
                rw [cumScan_cons]
                exact hj'lt i' (by omega)
        · rintro ⟨j, hjlen, hkj, hj3, hjlt⟩
          cases j with
          | zero =>
              exfalso
              rw [show cumScan h ((row :: rest).take (0 + 1)) = scanCells h 1 row by
                simp [cumScan]] at hj3
              omega
          | succ j' =>
              refine ⟨j', by simpa using hjlen, by omega, ?_, ?_⟩
              · rw [cumScan_cons] at hj3
                exact hj3
              · intro i hi
                have := hjlt (i + 1) (by omega)
                rw [cumScan_cons] at this
                exact this

/-- C8 as amended: the header scan accumulates recognized fields ACROSS
the first 5 rows and stops at the first row index at which the cumulative
count reaches at least 3; that row index is recorded as the header row
(rows are taken non-empty, as openpyxl yields rectangular rows). -/
theorem c8_amended_header_row (grid : List (List CellValue))
    (hne : ∀ row ∈ grid.take 5, row ≠ []) (k : Nat) :
    (scanHeaders grid).2 = some k ↔
      ∃ j, j < (grid.take 5).length ∧ k = 1 + j ∧
        3 ≤ headersLen (cumScan {} ((grid.take 5).take (j + 1))) ∧
        ∀ i, i < j → headersLen (cumScan {} ((grid.take 5).take (i + 1))) < 3 :=
  scanRows_stop_iff (grid.take 5) {} 1 0 hne k

/-- The two-row grid on which the claim as stated and the code disagree:
`date_processed` is contributed by row 1, the two amount columns by
row 2. -/
def c8Grid : List (List CellValue) :=
  [[CellValue.Text "Date processed"],
   [CellValue.Text "ACH_DEBIT_AMOUNT", CellValue.Text "ACH_RETURN_AMOUNT"]]

/-- C8 (counterexample to the claim as stated): no single row of `c8Grid`
contributes 3 recognized fields (row 1 yields 1 field, row 2 yields 2),
yet the scan accepts row 2 as the header row — the 3-field threshold is
cumulative across rows, not per-row — and the whole pipeline proceeds to
produce a result instead of failing. -/
theorem c8_counterexample :
    headersLen (scanCells {} 1 [CellValue.Text "Date processed"]) = 1 ∧
    headersLen (scanCells {} 1
        [CellValue.Text "ACH_DEBIT_AMOUNT", CellValue.Text "ACH_RETURN_AMOUNT"]) = 2 ∧
    (scanHeaders c8Grid).2 = some 2 ∧
    (process_transaction_file 2025 "enero 2025.xlsx" c8Grid).isSome = true := by
  refine ⟨by decide, by decide, by decide, by decide⟩

/-- Witness for C8 as amended at the concrete grid `c8Grid`. -/
theorem c8_witness :
    (scanHeaders c8Grid).2 = some 2 ↔
      ∃ j, j < (c8Grid.take 5).length ∧ 2 = 1 + j ∧
        3 ≤ headersLen (cumScan {} ((c8Grid.take 5).take (j + 1))) ∧
        ∀ i, i < j → headersLen (cumScan {} ((c8Grid.take 5).take (i + 1))) < 3 :=
  c8_amended_header_row c8Grid (by decide) 2

/-! ### Claims about period extraction and determinism -/

/-- C4 (counterexample to the claim as stated): `"march mayo 2025.xlsx"`
contains the recognized month token `march` (M = 3) and the year substring
`2025`, but extraction returns (5, 2025): the dictionary is iterated in
insertion order (Spanish months first) and `mayo` wins, so the extracted
period is not (M, Y) for every recognized token M the filename contains. -/
theorem c4_counterexample :
    subSearch "march".data (pyLower "march mayo 2025.xlsx") = true ∧
    ("march", 3) ∈ month_mapping ∧
    findYear20 "march mayo 2025.xlsx".data = some 2025 ∧
    extract_month_from_filename 2030 "march mayo 2025.xlsx" = some (5, 2025) ∧
    extract_month_from_filename 2030 "march mayo 2025.xlsx" ≠ some (3, 2025) := by
  refine ⟨by decide, by decide, by decide, by decide, by decide⟩

/-- C4 as amended: the extracted month is the FIRST entry of the fixed
dictionary (Spanish months 1–12, then English months 1–12) whose name
occurs as a substring of the lowercased filename; the year is the first
`20\d{2}` substring of the filename, defaulting to the current calendar
year when absent (`Option.getD nowYear`); and the following period is
(M+1, Y) for M < 12 and (1, Y+1) for M = 12. -/
theorem c4_amended_period_extraction (nowYear : Nat) (f : String) (nm : String) (M : Nat)
    (hfind : month_mapping.find? (fun p => subSearch p.1.data (pyLower f)) = some (nm, M)) :
    extract_month_from_filename nowYear f = some (M, (findYear20 f.data).getD nowYear) ∧
    subSearch nm.data (pyLower f) = true ∧
    (∀ y, get_following_month M y = if M = 12 then (1, y + 1) else (M + 1, y)) := by
  refine ⟨?_, ?_, fun y => rfl⟩
  · unfold extract_month_from_filename
    dsimp only
    rw [hfind]
  · simpa using List.find?_some hfind

/-- Witness for C4 as amended on the spec's Scenario A filename. -/
theorem c4_witness :
    extract_month_from_filename 2030 "09 Control Gusto Inc Septiembre 2025.xlsx" =
      some (9, (findYear20 "09 Control Gusto Inc Septiembre 2025.xlsx".data).getD 2030) ∧
    subSearch "septiembre".data (pyLower "09 Control Gusto Inc Septiembre 2025.xlsx") = true ∧
    (∀ y, get_following_month 9 y = if 9 = 12 then (1, y + 1) else (9 + 1, y)) :=
  c4_amended_period_extraction 2030 "09 Control Gusto Inc Septiembre 2025.xlsx"
    "septiembre" 9 (by decide)

/-- Minimal processable grid (header row only, no data rows). -/
def c9Grid : List (List CellValue) :=
  [[CellValue.Text "Date processed", CellValue.Text "ACH_DEBIT_AMOUNT",
    CellValue.Text "ACH_RETURN_AMOUNT"]]

/-- C9 (counterexample to the claim as stated): on a filename without a
year token the pipeline consults the wall clock (`datetime.now().year`) —
two runs on the byte-identical artifact and filename in different calendar
years produce different `AggregateResult`s (the source year differs), so
the output is not independent of wall-clock time. -/
theorem c9_counterexample :
    Option.map (fun r => r.file_year)
        (process_transaction_file 2025 "enero.xlsx" c9Grid) = some 2025 ∧
    Option.map (fun r => r.file_year)
        (process_transaction_file 2026 "enero.xlsx" c9Grid) = some 2026 ∧
    Option.map (fun r => r.file_year) (process_transaction_file 2025 "enero.xlsx" c9Grid) ≠
      Option.map (fun r => r.file_year) (process_transaction_file 2026 "enero.xlsx" c9Grid) := by
  refine ⟨by decide, by decide, by decide⟩

/-- Month extraction ignores the wall clock whenever the filename carries
a `20\d{2}` token. -/
theorem extract_month_indep (y1 y2 : Nat) (f : String) (hy : findYear20 f.data ≠ none) :
    extract_month_from_filename y1 f = extract_month_from_filename y2 f := by
  unfold extract_month_from_filename
  dsimp only
  cases hfind : month_mapping.find? (fun p => subSearch p.1.data (pyLower f)) with
  | none => simp [hfind]
  | some p =>
      cases hfy : findYear20 f.data with
      | none => exact absurd hfy hy
      | some y => simp [hfind, hfy]

/-- C9 as amended: the pipeline is a pure function of the artifact
content, the filename and the current calendar year (the embedding makes
this a total function of exactly those three inputs); whenever the
filename contains a `20\d{2}` year token the result is independent of the
wall clock entirely, so two runs at arbitrary times on byte-identical
input agree.  The run-identifying timestamp suffix of the CLI is attached
only to the OUTPUT file name and never reaches processing. -/
theorem c9_amended_determinism (y1 y2 : Nat) (f : String) (grid : List (List CellValue))
    (hy : findYear20 f.data ≠ none) :
    process_transaction_file y1 f grid = process_transaction_file y2 f grid := by
  unfold process_transaction_file
  rw [extract_month_indep y1 y2 f hy]

/-- Witness for C9 as amended: runs dated 2000 and 2030 agree on a
filename carrying a year token. -/
theorem c9_witness :
    process_transaction_file 2000 "enero 2025.xlsx" c9Grid =
      process_transaction_file 2030 "enero 2025.xlsx" c9Grid :=
  c9_amended_determinism 2000 2030 "enero 2025.xlsx" c9Grid (by decide)

/-! ### Equivalence of the two entry points (C10) -/

/-- The month dictionaries of the two files are the same literal. -/
theorem app_month_mapping_eq : app_month_mapping = month_mapping := rfl

/-- The two `extract_month_from_filename` copies agree. -/
theorem app_extract_eq :
    app_extract_month_from_filename = extract_month_from_filename := rfl

/-- The two `get_following_month` copies agree. -/
theorem app_get_following_month_eq : app_get_following_month = get_following_month := rfl

/-- The two `parse_date` copies agree. -/
theorem app_parse_date_eq : app_parse_date = parse_date := by
  funext v
  cases v <;> rfl

/-- The two header-cell steps agree. -/
theorem app_headerCellStep_eq : app_headerCellStep = headerCellStep := rfl

/-- The two row-cell scans agree. -/
theorem app_scanCells_eq : ∀ (cells : List CellValue) (h : Headers) (col : Nat),
    app_scanCells h col cells = scanCells h col cells := by
  intro cells
  induction cells with
  | nil => intro h col; rfl
  | cons v rest ih =>
      intro h col
      unfold app_scanCells scanCells
      rw [app_headerCellStep_eq, ih]

/-- The two early-stopped header scans agree. -/
theorem app_scanRows_eq : ∀ (rows : List (List CellValue)) (h : Headers) (idx lastRow : Nat),
    app_scanRows h idx lastRow rows = scanRows h idx lastRow rows := by
  intro rows
  induction rows with
  | nil => intro h idx lastRow; rfl
  | cons row rest ih =>
      intro h idx lastRow
      unfold app_scanRows scanRows
      rw [app_scanCells_eq]
      dsimp only
      split_ifs <;> first | rfl | exact ih _ _ _

/-- The two `CN`/`DN` cell steps agree. -/
theorem app_cndnCellStep_eq : app_cndnCellStep = cndnCellStep := rfl

/-- The two `CN`/`DN` cell scans agree. -/
theorem app_cndnScanCells_eq : ∀ (cells : List CellValue) (h : Headers) (col : Nat),
    app_cndnScanCells h col cells = cndnScanCells h col cells := by
  intro cells
  induction cells with
  | nil => intro h col; rfl
  | cons v rest ih =>
      intro h col
      unfold app_cndnScanCells cndnScanCells
      rw [app_cndnCellStep_eq, ih]

/-- The two `CN`/`DN` passes agree. -/
theorem app_cndnScanRows_eq : app_cndnScanRows = cndnScanRows := by
  funext h rows
  unfold app_cndnScanRows cndnScanRows
  have : (fun (a : Headers) (row : List CellValue) => app_cndnScanCells a 1 row) =
      fun (a : Headers) (row : List CellValue) => cndnScanCells a 1 row := by
    funext a row
    exact app_cndnScanCells_eq row a 1
  rw [this]

/-- The two per-row transaction builders agree. -/
theorem app_mkAllTxn_eq : app_mkAllTxn = mkAllTxn := by
  funext dpCol h folM folY row
  unfold app_mkAllTxn mkAllTxn rowMatchesVal
  rw [app_parse_date_eq]

/-- The two loop bodies agree. -/
theorem app_stepRow_eq : app_stepRow = stepRow := by
  funext dpCol h folM folY st row
  unfold app_stepRow stepRow
  rw [app_mkAllTxn_eq]

/-- The two loop iterations agree. -/
theorem app_processRow_eq : app_processRow = processRow := by
  funext dpCol h folM folY st row
  unfold app_processRow processRow
  rw [app_stepRow_eq]

/-- C10: the CLI and web copies of `process_transaction_file` are
behaviourally equivalent — for every input workbook, filename and current
year, they succeed on exactly the same inputs and produce the same
result (source period, following period, totals, net amount and both
transaction sequences); they differ only in how failure is reported
(`None` plus a printed message versus a `(None, message)` pair or a
propagated exception). -/
theorem c10_entry_point_equivalence (nowYear : Nat) (f : String)
    (grid : List (List CellValue)) (r : Result) :
    process_transaction_file nowYear f grid = some r ↔
      app_process_transaction_file nowYear f grid = Except.ok r := by
  unfold process_transaction_file app_process_transaction_file scanHeaders
  rw [app_extract_eq, app_scanRows_eq, app_cndnScanRows_eq, app_processRow_eq,
    app_get_following_month_eq]
  cases extract_month_from_filename nowYear f with
  | none => simp
  | some fmfy =>
      dsimp only
      cases (scanRows {} 1 0 (grid.take 5)).1.date_processed with
      | none => simp
      | some dpCol =>
          dsimp only
          cases (scanRows {} 1 0 (grid.take 5)).2 with
          | none => simp
          | some header_row =>
              dsimp only
              cases List.foldlM
                  (processRow dpCol
                    (cndnScanRows (scanRows {} 1 0 (grid.take 5)).1 (grid.take 5))
                    (get_following_month fmfy.1 fmfy.2).1
                    (get_following_month fmfy.1 fmfy.2).2)
                  {} (grid.drop header_row) with
              | none => simp
              | some st => simp
